import Mathlib

/-!
Shallow embedding of the `env-core` environment-variable validator
(`src/index.ts`, the overloaded `validateEnv` with its helpers
`loadEnvFile` and `validateEnvVariable`).

Modelling conventions:
* A JS schema value is either a bare constructor tag (`String`, `Number`,
  `Boolean`, or any other constructor such as `Date`) or a descriptor object
  `{type, required?, default?}`.
* `process.env` and dotenv-parsed files are flat string-to-string maps,
  modelled as association lists with first-match lookup.
* `Number(envValue)` follows the ECMAScript `ToNumber`-applied-to-string
  grammar (whitespace trimming, empty string is `0`, optional sign,
  `Infinity`, decimal and fraction and exponent forms, unsigned `0x`/`0o`/`0b`
  literals).  The model keeps the exact mathematical value (a rational, or an
  infinity) instead of rounding to an IEEE-754 double; `NaN` is `none`.
  No theorem below depends on double rounding.
* The shared mutable `errors` array becomes the second component of a
  returned pair; `throw`/`process.exit` become an `Outcome` inductive.
-/

/-- A JS constructor used as a schema type tag: `String`, `Number`, `Boolean`,
or any other constructor (e.g. `Date`), which the engine treats as
unsupported. -/
inductive TypeTag where
  | tString
  | tNumber
  | tBoolean
  | tOther (name : String)
  deriving DecidableEq, Repr

/-- Exact-value model of a non-NaN JS number: a rational, or an infinity. -/
inductive JSNum where
  | finite (q : Rat)
  | posInf
  | negInf
  deriving DecidableEq, Repr

/-- JS negation on non-NaN numbers (used when parsing a leading minus sign). -/
def JSNum.neg : JSNum → JSNum
  | finite q => finite (-q)
  | posInf => negInf
  | negInf => posInf

/-- A value that can appear in the validated config (or as an authored
schema default): a string, a number, or a boolean. -/
inductive JSValue where
  | vStr (s : String)
  | vNum (n : JSNum)
  | vBool (b : Bool)
  deriving DecidableEq, Repr

/-- The characters ECMAScript `ToNumber` trims from a string:
`WhiteSpace` and `LineTerminator` code points. -/
def isJSWhitespaceChar (c : Char) : Bool :=
  c == ' ' || c == '\t' || c == '\n' || c == '\r' ||
  c.val == 11 || c.val == 12 || c.val == 0xA0 || c.val == 0x1680 ||
  (0x2000 ≤ c.val && c.val ≤ 0x200A) || c.val == 0x2028 || c.val == 0x2029 ||
  c.val == 0x202F || c.val == 0x205F || c.val == 0x3000 || c.val == 0xFEFF

/-- Strip leading and trailing JS whitespace. -/
def jsTrim (cs : List Char) : List Char :=
  ((cs.dropWhile isJSWhitespaceChar).reverse.dropWhile isJSWhitespaceChar).reverse

/-- Value of a list of decimal digit characters, most significant first. -/
def digitsToNat (cs : List Char) : Nat :=
  cs.foldl (fun a c => a * 10 + (c.toNat - 48)) 0

/-- A nonempty all-decimal-digit string, or `none`. -/
def decDigitsVal (cs : List Char) : Option Nat :=
  if cs = [] then none
  else if cs.all Char.isDigit then some (digitsToNat cs) else none

/-- `ExponentPart` body: optionally signed nonempty decimal digits. -/
def parseSignedInt (cs : List Char) : Option Int :=
  match cs with
  | '+' :: r => (decDigitsVal r).map (fun n => (n : Int))
  | '-' :: r => (decDigitsVal r).map (fun n => -(n : Int))
  | r => (decDigitsVal r).map (fun n => (n : Int))

/-- Exact value of `IntPart.FracPart e Exp` as a rational: the digit string's
natural value scaled by ten to the (exponent minus number of fraction
digits). -/
def decimalValue (ip fp : List Char) (e : Int) : Rat :=
  let n : Nat := digitsToNat ip * 10 ^ fp.length + digitsToNat fp
  match e - (fp.length : Int) with
  | Int.ofNat k => mkRat (n * 10 ^ k) 1
  | Int.negSucc k => mkRat n (10 ^ (k + 1))

/-- Value of one digit character in the given base (supports up to base 16). -/
def digitValInBase (base : Nat) (c : Char) : Option Nat :=
  let v : Option Nat :=
    if c.isDigit then some (c.toNat - 48)
    else if 'a' ≤ c ∧ c ≤ 'f' then some (c.toNat - 87)
    else if 'A' ≤ c ∧ c ≤ 'F' then some (c.toNat - 55)
    else none
  match v with
  | some d => if d < base then some d else none
  | none => none

/-- A nonempty digit string in the given base, or `none`. -/
def radixVal (base : Nat) (cs : List Char) : Option Nat :=
  if cs = [] then none
  else cs.foldl (fun acc c =>
    match acc, digitValInBase base c with
    | some a, some d => some (a * base + d)
    | _, _ => none) (some 0)

/-- `StrUnsignedDecimalLiteral`: `Infinity`, or decimal digits with optional
fraction and exponent (at least one digit overall), consuming the whole
input. -/
def parseUnsignedDecimal (cs : List Char) : Option JSNum :=
  if cs = "Infinity".data then some JSNum.posInf
  else
    let ip := cs.takeWhile Char.isDigit
    let rest1 := cs.dropWhile Char.isDigit
    let fp := match rest1 with
      | '.' :: r => r.takeWhile Char.isDigit
      | _ => []
    let rest2 := match rest1 with
      | '.' :: r => r.dropWhile Char.isDigit
      | _ => rest1
    if ip = [] ∧ fp = [] then none
    else match rest2 with
      | [] => some (JSNum.finite (decimalValue ip fp 0))
      | c :: r =>
        if c = 'e' ∨ c = 'E' then
          match parseSignedInt r with
          | some e => some (JSNum.finite (decimalValue ip fp e))
          | none => none
        else none

/-- `StrDecimalLiteral`: an optional sign before the unsigned form. -/
def parseSignedDecimal (cs : List Char) : Option JSNum :=
  match cs with
  | '+' :: r => parseUnsignedDecimal r
  | '-' :: r => (parseUnsignedDecimal r).map JSNum.neg
  | r => parseUnsignedDecimal r

/-- `StrNumericLiteral`: an unsigned `0x`/`0o`/`0b` literal, or a signed
decimal literal. -/
def parseStrNumericLiteral (cs : List Char) : Option JSNum :=
  match cs with
  | '0' :: c :: r =>
    if c = 'x' ∨ c = 'X' then (radixVal 16 r).map (fun n => JSNum.finite (n : Rat))
    else if c = 'o' ∨ c = 'O' then (radixVal 8 r).map (fun n => JSNum.finite (n : Rat))
    else if c = 'b' ∨ c = 'B' then (radixVal 2 r).map (fun n => JSNum.finite (n : Rat))
    else parseSignedDecimal cs
  | _ => parseSignedDecimal cs

/-- `Number(s)` on a string: trim JS whitespace; an empty remainder is `0`;
otherwise parse the numeric literal.  `none` models `NaN` (so the source's
`isNaN(Number(envValue))` is `(jsToNumber v).isNone`). -/
def jsToNumber (s : String) : Option JSNum :=
  let cs := jsTrim s.data
  if cs = [] then some (JSNum.finite 0) else parseStrNumericLiteral cs

/-- A schema descriptor object as authored by the caller
(`EnvSchemaItem<T>` from `types.ts`): `required` and `default` are optional
properties. -/
structure EnvSchemaItem where
  type : TypeTag
  required : Option Bool := none
  default : Option JSValue := none
  deriving DecidableEq, Repr

/-- One schema entry value (`EnvSchemaValue<T>`): a bare constructor tag or a
descriptor object. -/
inductive EnvSchemaValue where
  | bare (t : TypeTag)
  | item (d : EnvSchemaItem)
  deriving DecidableEq, Repr

/-- The canonical descriptor produced inside `validateEnv`'s loop, where
`required` has been resolved to a definite boolean. -/
structure SchemaItemNorm where
  type : TypeTag
  required : Bool
  default : Option JSValue := none
  deriving DecidableEq, Repr

/-- The per-entry normalization from `validateEnv`'s loop:
`typeof schemaValue === 'function' ? { type: schemaValue, required: true }
: { ...schemaValue, required: schemaValue.required !== false }`. -/
def normalizeSchemaValue : EnvSchemaValue → SchemaItemNorm
  | .bare t => { type := t, required := true, default := none }
  | .item d => { type := d.type, required := d.required != some false, default := d.default }

/-- A flat string-keyed environment (`process.env` or a dotenv parse result),
as an association list; lookup takes the first match. -/
abbrev RawEnv : Type := List (String × String)

/-- JS property lookup `env[key]` on a `RawEnv`. -/
def lookupEnv (env : RawEnv) (key : String) : Option String :=
  match env with
  | [] => none
  | (k, v) :: rest => if k = key then some v else lookupEnv rest key

/-- `validateEnvVariable(key, envValue, schemaItem, errors)` from
`src/index.ts`.  The source pushes messages onto a shared `errors` array and
returns the validated value or `undefined`; here the pair returns the value
(`none` for `undefined`) together with the messages pushed for this key. -/
def validateEnvVariable (key : String) (envValue : Option String)
    (schemaItem : SchemaItemNorm) : Option JSValue × List String :=
  match envValue with
  | none =>
    if schemaItem.required then
      (none, ["Missing required field: " ++ key])
    else
      match schemaItem.default with
      | some d => (some d, [])
      | none => (none, [])
  | some v =>
    match schemaItem.type with
    | .tNumber =>
      match jsToNumber v with
      | none => (none, [key ++ " should be a number"])
      | some num => (some (.vNum num), [])
    | .tBoolean =>
      if v ≠ "true" ∧ v ≠ "false" then
        (none, [key ++ " should be a boolean"])
      else
        (some (.vBool (v = "true")), [])
    | .tString => (some (.vStr v), [])
    | .tOther _ => (none, [key ++ " has an unsupported type"])

/-- The `for (const [key, schemaValue] of Object.entries(schema))` loop of
`validateEnv`: normalize the entry, look the key up in the environment,
validate, and record the value (when defined) and the errors, in schema
order. -/
def validateEnvEntries (schema : List (String × EnvSchemaValue)) (env : RawEnv) :
    List (String × JSValue) × List String :=
  match schema with
  | [] => ([], [])
  | (key, schemaValue) :: rest =>
    let schemaItem := normalizeSchemaValue schemaValue
    let envValue := lookupEnv env key
    let r := validateEnvVariable key envValue schemaItem
    let rr := validateEnvEntries rest env
    match r.1 with
    | some v => ((key, v) :: rr.1, r.2 ++ rr.2)
    | none => (rr.1, r.2 ++ rr.2)

/-- What the filesystem and dotenv report for a path: no file
(`fs.existsSync` false), a parse failure (`result.error`), or parsed
key/value pairs (`result.parsed`). -/
inductive FileResult where
  | missing
  | parseError (msg : String)
  | parsed (pairs : List (String × String))

/-- `loadEnvFile(envFile = '.env')` from `src/index.ts`, with the filesystem
and the ambient `process.env` passed explicitly.  A missing file or a dotenv
error leaves `process.env` as the environment; a parsed file yields
`{ ...process.env, ...result.parsed }`, i.e. the file's pairs take
precedence, modelled by prepending them to the first-match list. -/
def loadEnvFile (fsys : String → FileResult) (processEnv : RawEnv)
    (envFile : Option String) : RawEnv :=
  match fsys (envFile.getD ".env") with
  | .missing => processEnv
  | .parseError _ => processEnv
  | .parsed pairs => pairs ++ processEnv

/-- The second positional argument of the overloaded `validateEnv`: absent, a
config object (the NestJS embedded form), or an env-file name. -/
inductive ConfigOrEnvFile where
  | absent
  | configObj (config : List (String × JSValue))
  | envFileName (s : String)

/-- How a `validateEnv` call ends: returns the validated config, throws an
`Error` with the given message, or prints the report and calls
`process.exit(1)`. -/
inductive Outcome where
  | ok (config : List (String × JSValue))
  | thrown (msg : String)
  | exited (code : Nat)
  deriving DecidableEq, Repr

/-- The overloaded `validateEnv(schema, configOrEnvFile?, envFile?)` from
`src/index.ts`: resolve which argument names the env file, load the
environment, run the validation loop, and on errors either throw (config
object supplied) or print and exit; otherwise return the config. -/
def validateEnv (fsys : String → FileResult) (processEnv : RawEnv)
    (schema : List (String × EnvSchemaValue))
    (configOrEnvFile : ConfigOrEnvFile) (envFile : Option String) : Outcome :=
  let envFileResolved := match configOrEnvFile with
    | .envFileName s => some s
    | _ => envFile
  let env := loadEnvFile fsys processEnv envFileResolved
  let r := validateEnvEntries schema env
  if r.2.length ≠ 0 then
    match configOrEnvFile with
    | .configObj _ =>
      Outcome.thrown ("Environment validation failed:\n" ++
        String.intercalate "\n" (r.2.map (fun e => "- " ++ e)))
    | _ => Outcome.exited 1
  else Outcome.ok r.1

example : jsToNumber "3000" = some (JSNum.finite 3000) := by decide
example : jsToNumber "" = some (JSNum.finite 0) := by decide
example : jsToNumber "  " = some (JSNum.finite 0) := by decide
example : jsToNumber "not-number" = none := by decide
example : jsToNumber "-1.5e2" = some (JSNum.finite (-150)) := by decide
example : jsToNumber "0x1F" = some (JSNum.finite 31) := by decide
example : jsToNumber "-0x10" = none := by decide
example : jsToNumber " Infinity" = some JSNum.posInf := by decide
example : jsToNumber "3." = some (JSNum.finite 3) := by decide
example : jsToNumber ".5e1" = some (JSNum.finite 5) := by decide
example : jsToNumber "1e" = none := by decide
example : jsToNumber "1 2" = none := by decide

/-- Helper: each call to `validateEnvVariable` pushes at most one message. -/
theorem validateEnvVariable_errors_length_le_one (key : String)
    (envValue : Option String) (item : SchemaItemNorm) :
    (validateEnvVariable key envValue item).2.length ≤ 1 := by
  obtain ⟨t, r, d⟩ := item
  unfold validateEnvVariable
  cases envValue with
  | none =>
    dsimp only
    split
    · simp
    · split <;> simp
  | some v =>
    cases t with
    | tNumber =>
      dsimp only
      cases h : jsToNumber v <;> simp
    | tBoolean =>
      dsimp only
      split <;> simp
    | tString => simp
    | tOther name => simp

/-- C3: normalization of a schema entry: a bare tag gives `required = true`
with no default; a descriptor keeps its type and default and is required
unless `required` is explicitly `false` (absent or `true` both give
`true`); and normalization is a total function (it never fails). -/
theorem normalizeSchemaValue_spec :
    (∀ t, normalizeSchemaValue (EnvSchemaValue.bare t) =
      { type := t, required := true, default := none }) ∧
    (∀ t d, normalizeSchemaValue
        (EnvSchemaValue.item { type := t, required := none, default := d }) =
      { type := t, required := true, default := d }) ∧
    (∀ t d, normalizeSchemaValue
        (EnvSchemaValue.item { type := t, required := some true, default := d }) =
      { type := t, required := true, default := d }) ∧
    (∀ t d, normalizeSchemaValue
        (EnvSchemaValue.item { type := t, required := some false, default := d }) =
      { type := t, required := false, default := d }) :=
  ⟨fun _ => rfl, fun _ _ => rfl, fun _ _ => rfl, fun _ _ => rfl⟩

/-- C5: boolean coercion accepts exactly the case-sensitive literals
`"true"` and `"false"`, storing the corresponding boolean; any other raw
string (e.g. `"1"`, `"TRUE"`, `"yes"`) yields the single error
`"{key} should be a boolean"` and no value. -/
theorem boolean_literal_spec (key s : String) (r : Bool) (d : Option JSValue) :
    validateEnvVariable key (some s)
        { type := TypeTag.tBoolean, required := r, default := d } =
      (if s = "true" then (some (JSValue.vBool true), [])
       else if s = "false" then (some (JSValue.vBool false), [])
       else (none, [key ++ " should be a boolean"])) := by
  unfold validateEnvVariable
  by_cases h1 : s = "true" <;> by_cases h2 : s = "false" <;>
    simp [h1, h2]

/-- C2 (counterexample): a required `String`-typed key whose raw value is the
empty string is NOT treated as missing: the call records no
missing-required error and stores the empty string. -/
theorem empty_string_counterexample :
    validateEnvEntries [("TOKEN", EnvSchemaValue.bare TypeTag.tString)]
        [("TOKEN", "")] =
      ([("TOKEN", JSValue.vStr "")], []) ∧
    (validateEnvEntries [("TOKEN", EnvSchemaValue.bare TypeTag.tString)]
        [("TOKEN", "")]).2 ≠ ["Missing required field: TOKEN"] := by
  constructor
  · rfl
  · decide

/-- C2 (amended): a key whose raw value is present but empty takes the
present-value branch: `required` and `default` are never consulted (the
outcome does not depend on them), and the empty string is passed to type
coercion — under `Number` it parses to `0`, under `String` it is stored
unchanged, and under `Boolean` it yields a type error. -/
theorem empty_string_is_present_spec (key : String) (t : TypeTag) (r : Bool)
    (d : Option JSValue) :
    validateEnvVariable key (some "") { type := t, required := r, default := d } =
      validateEnvVariable key (some "") { type := t, required := true, default := none } ∧
    validateEnvVariable key (some "")
        { type := TypeTag.tNumber, required := r, default := d } =
      (some (JSValue.vNum (JSNum.finite 0)), []) ∧
    validateEnvVariable key (some "")
        { type := TypeTag.tString, required := r, default := d } =
      (some (JSValue.vStr ""), []) ∧
    validateEnvVariable key (some "")
        { type := TypeTag.tBoolean, required := r, default := d } =
      (none, [key ++ " should be a boolean"]) := by
  refine ⟨?_, rfl, rfl, rfl⟩
  cases t <;> rfl

/-- C10: a `Number`-typed key whose raw value is empty or consists only of
JS whitespace is coerced to the number `0` with no error (the value is
defined, so neither the missing-required branch nor the default applies). -/
theorem number_whitespace_zero_spec (key s : String) (r : Bool)
    (d : Option JSValue) (h : s.data.all isJSWhitespaceChar = true) :
    validateEnvVariable key (some s)
        { type := TypeTag.tNumber, required := r, default := d } =
      (some (JSValue.vNum (JSNum.finite 0)), []) := by
  have h1 : s.data.dropWhile isJSWhitespaceChar = [] := by
    rw [List.dropWhile_eq_nil_iff]
    intro x hx
    exact List.all_eq_true.mp h x hx
  unfold validateEnvVariable
  have h2 : jsToNumber s = some (JSNum.finite 0) := by
    unfold jsToNumber jsTrim
    rw [h1]
    rfl
  simp [h2]

/-- C10 witness: a two-space raw value for a required `Number` key stores
`0` and records no error. -/
theorem number_whitespace_zero_spec_witness :
    ("  ".data.all isJSWhitespaceChar = true) ∧
    validateEnvVariable "PORT" (some "  ")
        { type := TypeTag.tNumber, required := true, default := none } =
      (some (JSValue.vNum (JSNum.finite 0)), []) :=
  ⟨by decide, number_whitespace_zero_spec "PORT" "  " true none (by decide)⟩

/-- C4: a required key whose environment value is undefined produces exactly
the one error `"Missing required field: {key}"` and no value — even when the
descriptor supplies a default — and in the validation loop such a key
contributes that one error, no config entry, and leaves the processing of
the remaining schema keys unchanged. -/
theorem missing_required_field_spec (key : String) (t : TypeTag)
    (d : Option JSValue) (rest : List (String × EnvSchemaValue)) (env : RawEnv)
    (h : lookupEnv env key = none) :
    validateEnvVariable key (lookupEnv env key)
        { type := t, required := true, default := d } =
      (none, ["Missing required field: " ++ key]) ∧
    validateEnvEntries
        ((key, EnvSchemaValue.item { type := t, required := some true, default := d })
          :: rest) env =
      ((validateEnvEntries rest env).1,
        ("Missing required field: " ++ key) :: (validateEnvEntries rest env).2) := by
  constructor
  · rw [h]
    rfl
  · simp [validateEnvEntries, normalizeSchemaValue, validateEnvVariable, h]

/-- C4 witness: a required `Number` key with an authored default `3000`, an
env file lacking the key, still errors and stores nothing. -/
theorem missing_required_field_spec_witness :
    lookupEnv [("HOST", "x")] "PORT" = none ∧
    (validateEnvVariable "PORT" (lookupEnv [("HOST", "x")] "PORT")
        { type := TypeTag.tNumber, required := true, default := some (JSValue.vNum (JSNum.finite 3000)) } =
      (none, ["Missing required field: PORT"]) ∧
    validateEnvEntries
        [("PORT", EnvSchemaValue.item { type := TypeTag.tNumber, required := some true, default := some (JSValue.vNum (JSNum.finite 3000)) })] [("HOST", "x")] =
      ((validateEnvEntries [] [("HOST", "x")]).1,
        ("Missing required field: PORT") :: (validateEnvEntries [] [("HOST", "x")]).2)) :=
  ⟨rfl, missing_required_field_spec "PORT" TypeTag.tNumber
    (some (JSValue.vNum (JSNum.finite 3000))) [] [("HOST", "x")] rfl⟩

/-- C1: the validation loop is collect-all: its result decomposes pointwise
over the schema — the config is the `filterMap` of the per-key validated
values and the error report is the in-order concatenation of the per-key
messages (so a key that errors neither stops nor alters the processing of
any later key, and every schema key is visited exactly once) — and each key
contributes at most one message, so every violating key is reported exactly
once in the single report. -/
theorem collect_all_spec (schema : List (String × EnvSchemaValue)) (env : RawEnv) :
    validateEnvEntries schema env =
      (schema.filterMap (fun kv =>
          (validateEnvVariable kv.1 (lookupEnv env kv.1) (normalizeSchemaValue kv.2)).1.map
            (fun v => (kv.1, v))),
        schema.flatMap (fun kv =>
          (validateEnvVariable kv.1 (lookupEnv env kv.1) (normalizeSchemaValue kv.2)).2)) ∧
    (∀ key envValue item, (validateEnvVariable key envValue item).2.length ≤ 1) := by
  constructor
  · induction schema with
    | nil => rfl
    | cons kv rest ih =>
      obtain ⟨key, schemaValue⟩ := kv
      rw [validateEnvEntries, ih]
      cases h : (validateEnvVariable key (lookupEnv env key)
          (normalizeSchemaValue schemaValue)).1 <;>
        simp [List.filterMap_cons, h]
  · exact validateEnvVariable_errors_length_le_one

/-- C7: when the env file loads, the resolved environment is the ambient
`process.env` overlaid by the file's pairs: a key the file defines resolves
to the file's value, and a key the file does not define resolves to the
ambient value. -/
theorem env_overlay_spec (procEnv pairs : RawEnv) (envFile : Option String)
    (key : String) :
    lookupEnv (loadEnvFile (fun _ => FileResult.parsed pairs) procEnv envFile) key =
      (match lookupEnv pairs key with
       | some v => some v
       | none => lookupEnv procEnv key) := by
  show lookupEnv (pairs ++ procEnv) key = _
  induction pairs with
  | nil => simp [lookupEnv]
  | cons p rest ih =>
    obtain ⟨k, v⟩ := p
    by_cases hk : k = key <;> simp [lookupEnv, hk, ih]

/-- C8: in embedded use (a config object supplied), a failing validation
surfaces as exactly one thrown error whose message is the consolidated
report — the header followed by one `"- "`-prefixed line per recorded
violation — and never a process exit. -/
theorem embedded_throw_spec (fsys : String → FileResult) (procEnv : RawEnv)
    (schema : List (String × EnvSchemaValue)) (config : List (String × JSValue))
    (envFile : Option String)
    (h : (validateEnvEntries schema (loadEnvFile fsys procEnv envFile)).2 ≠ []) :
    validateEnv fsys procEnv schema (ConfigOrEnvFile.configObj config) envFile =
      Outcome.thrown ("Environment validation failed:\n" ++
        String.intercalate "\n"
          ((validateEnvEntries schema (loadEnvFile fsys procEnv envFile)).2.map
            (fun e => "- " ++ e))) := by
  have hlen : (validateEnvEntries schema (loadEnvFile fsys procEnv envFile)).2.length ≠ 0 := by
    simpa [List.length_eq_zero] using h
  simp only [validateEnv]
  rw [if_pos hlen]

/-- C8 witness: one required key, an absent env file and an empty ambient
environment, called with a (NestJS-style) config object: the call throws the
single consolidated message and does not exit. -/
theorem embedded_throw_spec_witness :
    (validateEnvEntries [("PORT", EnvSchemaValue.bare TypeTag.tNumber)]
        (loadEnvFile (fun _ => FileResult.missing) [] none)).2 ≠ [] ∧
    validateEnv (fun _ => FileResult.missing) []
        [("PORT", EnvSchemaValue.bare TypeTag.tNumber)]
        (ConfigOrEnvFile.configObj [("PORT", JSValue.vStr "ignored")]) none =
      Outcome.thrown "Environment validation failed:\n- Missing required field: PORT" :=
  ⟨by decide,
    embedded_throw_spec (fun _ => FileResult.missing) []
      [("PORT", EnvSchemaValue.bare TypeTag.tNumber)]
      [("PORT", JSValue.vStr "ignored")] none (by decide)⟩

/-- C9: in the embedded overload the supplied config object's contents are
never consulted: the outcome is identical for any two config objects, and it
is computed entirely from the validation loop over the environment obtained
by loading the env file over the process environment, the config argument
only selecting throw-on-failure. -/
theorem config_object_unused_spec (fsys : String → FileResult) (procEnv : RawEnv)
    (schema : List (String × EnvSchemaValue))
    (c c' : List (String × JSValue)) (envFile : Option String) :
    validateEnv fsys procEnv schema (ConfigOrEnvFile.configObj c) envFile =
      validateEnv fsys procEnv schema (ConfigOrEnvFile.configObj c') envFile ∧
    validateEnv fsys procEnv schema (ConfigOrEnvFile.configObj c) envFile =
      (let r := validateEnvEntries schema (loadEnvFile fsys procEnv envFile)
       if r.2.length ≠ 0 then
         Outcome.thrown ("Environment validation failed:\n" ++
           String.intercalate "\n" (r.2.map (fun e => "- " ++ e)))
       else Outcome.ok r.1) :=
  ⟨rfl, rfl⟩
